import Mathlib

/-!
Shallow embedding of `src/relay/op/vision/nms.cc`: the Relay type relations
`GetValidCountRel`, `NMSRel`, `BatchToIndexRel` and the call constructors
`MakeGetValidCounts`, `MakeNMS`, plus a model (from the spec) of the IoU
primitive, which has no implementation in the sources at hand.
-/

namespace NmsVerify

/-- A tensor element dtype. `DType.int 32` embeds the C++ `Int(32)`. -/
inductive DType
| int : Nat → DType
| uint : Nat → DType
| float : Nat → DType
deriving DecidableEq, Repr

/-- A `TensorTypeNode`: a shape (list of dimensions, here concrete `Nat`s,
embedding constant `IndexExpr`s) together with a dtype. -/
structure TensorType where
  shape : List Nat
  dtype : DType
deriving DecidableEq, Repr

/-- A Relay `Type` as seen by the type relations: a tensor type, a tuple
type, or some other node (e.g. an `IncompleteType` placeholder), on which
the `as<TensorTypeNode>()` cast yields null. -/
inductive RType
| tensor : TensorType → RType
| tuple : List RType → RType
| incomplete : RType

/-- The C++ `types[i].as<TensorTypeNode>()` cast: `none` models a null
result of the downcast. -/
def RType.asTensor : RType → Option TensorType
| tensor t => some t
| _ => none

/-- Whether an `RType` is a tensor type (the downcast succeeds). -/
def RType.isTensor : RType → Bool
| tensor _ => true
| _ => false

/-- How a type-relation call can fail: a failed `CHECK` (fatal log
message), or a dereference of the null result of a failed downcast. -/
inductive RelError
| checkFail : String → RelError
| nullDeref : RelError
deriving DecidableEq, Repr

/-- `GetValidCountsAttrs` (score_threshold is a C++ double, embedded
as a rational). -/
structure GetValidCountsAttrs where
  score_threshold : Rat
  id_index : Int
  score_index : Int
deriving DecidableEq, Repr

/-- `NonMaximumSuppressionAttrs`: the nine configuration fields. -/
structure NonMaximumSuppressionAttrs where
  max_output_size : Int
  iou_threshold : Rat
  force_suppress : Bool
  top_k : Int
  coord_start : Int
  score_index : Int
  id_index : Int
  return_indices : Bool
  invalid_to_bottom : Bool
deriving DecidableEq, Repr

/-- `BatchToIndexAttrs`: carries no fields. -/
structure BatchToIndexAttrs where
deriving DecidableEq, Repr

/-- Embedding of `GetValidCountRel`: `CHECK_EQ(types.size(), 2)`; downcast
`types[0]` to a tensor type and dereference it (rank must be 3); assign to
`types[1]` the tuple (count `[B]` int32, data `[B,N,K]` same dtype,
indices `[B,N]` int32). The attributes are not read. -/
def GetValidCountRel (types : List RType) (_attrs : GetValidCountsAttrs) :
    Except RelError RType :=
  match types with
  | [dty, _out] =>
    match dty.asTensor with
    | none => .error .nullDeref
    | some data =>
      match data.shape with
      | [b, n, _k] =>
        .ok (.tuple [ .tensor ⟨[b], .int 32⟩,
                      .tensor ⟨data.shape, data.dtype⟩,
                      .tensor ⟨[b, n], .int 32⟩ ])
      | _ => .error (.checkFail "Input data should be 3-D.")
  | _ => .error (.checkFail "CHECK_EQ types.size 2")

/-- Embedding of `NMSRel`: `CHECK_EQ(types.size(), 4)`; downcast and
dereference `types[0]` (data) and `types[1]` (valid_count); data rank must
be 3 and valid_count rank must be 1; assign to `types[3]` either the tuple
(`[B,N]` int32, `[B,1]` int32) when `return_indices` is set, or a tensor
of the data shape and dtype otherwise. -/
def NMSRel (types : List RType) (param : NonMaximumSuppressionAttrs) :
    Except RelError RType :=
  match types with
  | [dty, vty, _ity, _out] =>
    match dty.asTensor with
    | none => .error .nullDeref
    | some data =>
      match vty.asTensor with
      | none => .error .nullDeref
      | some valid_count =>
        if data.shape.length ≠ 3 then
          .error (.checkFail "Input data should be 3-D.")
        else if valid_count.shape.length ≠ 1 then
          .error (.checkFail "Input valid count should be 1-D.")
        else if param.return_indices then
          .ok (.tuple [ .tensor ⟨[data.shape.getD 0 0, data.shape.getD 1 0], .int 32⟩,
                        .tensor ⟨[data.shape.getD 0 0, 1], .int 32⟩ ])
        else
          .ok (.tensor ⟨data.shape, data.dtype⟩)
  | _ => .error (.checkFail "CHECK_EQ types.size 4")

/-- Embedding of `BatchToIndexRel`: `CHECK_EQ(types.size(), 3)`; downcast
and dereference `types[0]` (box_indices) and `types[1]` (class_ids); both
ranks must be 2; assign to `types[2]` a tensor of shape
`[bshape[0]*bshape[1], 3]` with the dtype of box_indices. -/
def BatchToIndexRel (types : List RType) (_attrs : BatchToIndexAttrs) :
    Except RelError RType :=
  match types with
  | [bty, cty, _out] =>
    match bty.asTensor with
    | none => .error .nullDeref
    | some box_indices =>
      match cty.asTensor with
      | none => .error .nullDeref
      | some class_ids =>
        if box_indices.shape.length ≠ 2 then
          .error (.checkFail "Box indices should be 2-D.")
        else if class_ids.shape.length ≠ 2 then
          .error (.checkFail "Class IDs should be 2-D.")
        else
          .ok (.tensor ⟨[box_indices.shape.getD 0 0 * box_indices.shape.getD 1 0, 3],
                        box_indices.dtype⟩)
  | _ => .error (.checkFail "CHECK_EQ types.size 3")

/-- The attribute node carried by a constructed call. -/
inductive AttrsVal
| gvc : GetValidCountsAttrs → AttrsVal
| nms : NonMaximumSuppressionAttrs → AttrsVal
| batchToIndex : BatchToIndexAttrs → AttrsVal

/-- A Relay expression, restricted to what the constructors build: opaque
leaves (the caller-supplied argument expressions) and call nodes
(`CallNode::make(op, args, attrs)`). -/
inductive Expr
| leaf : String → Expr
| call : String → List Expr → AttrsVal → Expr

/-- Embedding of `MakeGetValidCounts`: populate a `GetValidCountsAttrs`
node from the arguments and build a call to `vision.get_valid_counts`
with argument list `(data)`. -/
def MakeGetValidCounts (data : Expr) (score_threshold : Rat)
    (id_index : Int) (score_index : Int) : Expr :=
  Expr.call "vision.get_valid_counts" [data]
    (AttrsVal.gvc ⟨score_threshold, id_index, score_index⟩)

/-- Embedding of `MakeNMS`: populate a `NonMaximumSuppressionAttrs` node
field by field from the arguments and build a call to
`vision.non_max_suppression` with argument list
`(data, valid_count, indices)`. -/
def MakeNMS (data valid_count indices : Expr)
    (max_output_size : Int) (iou_threshold : Rat) (force_suppress : Bool)
    (top_k coord_start score_index id_index : Int)
    (return_indices invalid_to_bottom : Bool) : Expr :=
  Expr.call "vision.non_max_suppression" [data, valid_count, indices]
    (AttrsVal.nms ⟨max_output_size, iou_threshold, force_suppress, top_k,
                   coord_start, score_index, id_index, return_indices,
                   invalid_to_bottom⟩)

/-- Embedding of `MakeBatchToIndex`: an empty `BatchToIndexAttrs` node and
a call to `vision.batch_to_index` with arguments
`(box_indices, class_ids)`. -/
def MakeBatchToIndex (box_indices class_ids : Expr) : Expr :=
  Expr.call "vision.batch_to_index" [box_indices, class_ids]
    (AttrsVal.batchToIndex ⟨⟩)

/-- A tensor together with element contents (as rationals), used to state
that shape inference never reads the contents. -/
structure TensorValue where
  ty : TensorType
  contents : List Rat

/-- The type list a shape-inference call sees: the types of the concrete
input tensors followed by the remaining (output placeholder) types. -/
def typesOf (inputs : List TensorValue) (rest : List RType) : List RType :=
  inputs.map (fun v => RType.tensor v.ty) ++ rest

/-- Run `GetValidCountRel` on concrete input tensors (contents included):
only the types reach the relation. -/
def runGetValidCount (inputs : List TensorValue) (rest : List RType)
    (a : GetValidCountsAttrs) : Except RelError RType :=
  GetValidCountRel (typesOf inputs rest) a

/-- Run `NMSRel` on concrete input tensors (contents included): only the
types reach the relation. -/
def runNMS (inputs : List TensorValue) (rest : List RType)
    (p : NonMaximumSuppressionAttrs) : Except RelError RType :=
  NMSRel (typesOf inputs rest) p

/-- Run `BatchToIndexRel` on concrete input tensors (contents included):
only the types reach the relation. -/
def runBatchToIndex (inputs : List TensorValue) (rest : List RType)
    (a : BatchToIndexAttrs) : Except RelError RType :=
  BatchToIndexRel (typesOf inputs rest) a

/-- An axis-aligned box: left, top, right, bottom coordinates
(rationals embedding the numeric coordinate values). -/
structure Box where
  left : Rat
  top : Rat
  right : Rat
  bottom : Rat

/-- Modelled from the spec: the IoU primitive has no implementation among
the sources at hand; from §4.1, `area(box) = max(0, right-left) *
max(0, bottom-top)`. -/
def area (x : Box) : Rat :=
  max 0 (x.right - x.left) * max 0 (x.bottom - x.top)

/-- Modelled from the spec: the clipped overlap of the two rectangles,
clamped to ≥ 0 on each axis before multiplying (§4.1). -/
def intersectionArea (x y : Box) : Rat :=
  max 0 (min x.right y.right - max x.left y.left) *
    max 0 (min x.bottom y.bottom - max x.top y.top)

/-- Modelled from the spec: `iou = intersection / (area_a + area_b -
intersection)`; if the denominator is 0, the result is 0 (§4.1). -/
def iou (x y : Box) : Rat :=
  if area x + area y - intersectionArea x y = 0 then 0
  else intersectionArea x y / (area x + area y - intersectionArea x y)

/-- Claim C1: on data of shape `[B,N,K]` and valid_count of shape `[B]`,
`NMSRel` assigns, when `return_indices` is false, a tensor `[B,N,K]` of the
input dtype, and when `return_indices` is true, a pair of an int32 tensor
`[B,N]` and an int32 tensor `[B,1]`. -/
theorem C1_nms_output_type (b n k : Nat) (d vd : DType) (ity oty : RType)
    (param : NonMaximumSuppressionAttrs) :
    (param.return_indices = false →
      NMSRel [.tensor ⟨[b, n, k], d⟩, .tensor ⟨[b], vd⟩, ity, oty] param
        = .ok (.tensor ⟨[b, n, k], d⟩)) ∧
    (param.return_indices = true →
      NMSRel [.tensor ⟨[b, n, k], d⟩, .tensor ⟨[b], vd⟩, ity, oty] param
        = .ok (.tuple [.tensor ⟨[b, n], .int 32⟩, .tensor ⟨[b, 1], .int 32⟩])) := by
  constructor <;> intro h <;> simp [NMSRel, RType.asTensor, h]

/-- Claim C1 witness at `B = 2`, `N = 5`, `K = 6`. -/
theorem C1_nms_output_type_witness :
    NMSRel [.tensor ⟨[2, 5, 6], .float 32⟩, .tensor ⟨[2], .int 32⟩, .incomplete, .incomplete]
        ⟨-1, 1/2, false, -1, 2, 1, 0, false, false⟩
      = .ok (.tensor ⟨[2, 5, 6], .float 32⟩) ∧
    NMSRel [.tensor ⟨[2, 5, 6], .float 32⟩, .tensor ⟨[2], .int 32⟩, .incomplete, .incomplete]
        ⟨-1, 1/2, false, -1, 2, 1, 0, true, false⟩
      = .ok (.tuple [.tensor ⟨[2, 5], .int 32⟩, .tensor ⟨[2, 1], .int 32⟩]) :=
  ⟨(C1_nms_output_type 2 5 6 (.float 32) (.int 32) .incomplete .incomplete _).1 rfl,
   (C1_nms_output_type 2 5 6 (.float 32) (.int 32) .incomplete .incomplete _).2 rfl⟩

/-- Claim C2 counterexample: a batch-size mismatch (data `[2,3,6]` against
valid_count `[5]`) together with out-of-bounds `coord_start = 100`,
`score_index = 200`, `id_index = 300` for `K = 6` is accepted by `NMSRel`
with a successful output assignment, not a fatal failure. -/
theorem C2_counterexample :
    NMSRel [.tensor ⟨[2, 3, 6], .float 32⟩, .tensor ⟨[5], .int 32⟩, .incomplete, .incomplete]
        ⟨-1, 1/2, false, -1, 100, 200, 300, false, false⟩
      = .ok (.tensor ⟨[2, 3, 6], .float 32⟩) := rfl

/-- Claim C2 (amended): `NMSRel` fatally detects data rank ≠ 3 and
valid_count rank ≠ 1; it performs no batch-size consistency check and no
bounds check on `score_index`, `id_index` or `coord_start`, accepting any
such configuration. -/
theorem C2_nms_rank_checks_only (d vd : DType) (ity oty : RType)
    (param : NonMaximumSuppressionAttrs) :
    (∀ shp vshp : List Nat, shp.length ≠ 3 →
      NMSRel [.tensor ⟨shp, d⟩, .tensor ⟨vshp, vd⟩, ity, oty] param
        = .error (.checkFail "Input data should be 3-D.")) ∧
    (∀ shp vshp : List Nat, shp.length = 3 → vshp.length ≠ 1 →
      NMSRel [.tensor ⟨shp, d⟩, .tensor ⟨vshp, vd⟩, ity, oty] param
        = .error (.checkFail "Input valid count should be 1-D.")) ∧
    (∀ b n k vb : Nat, ∃ t,
      NMSRel [.tensor ⟨[b, n, k], d⟩, .tensor ⟨[vb], vd⟩, ity, oty] param = .ok t) := by
  refine ⟨?_, ?_, ?_⟩
  · intro shp vshp h
    simp [NMSRel, RType.asTensor, h]
  · intro shp vshp h3 h1
    simp [NMSRel, RType.asTensor, h3, h1]
  · intro b n k vb
    by_cases hri : param.return_indices
    · exact ⟨.tuple [.tensor ⟨[b, n], .int 32⟩, .tensor ⟨[b, 1], .int 32⟩],
        by simp [NMSRel, RType.asTensor, hri]⟩
    · exact ⟨.tensor ⟨[b, n, k], d⟩, by simp [NMSRel, RType.asTensor, hri]⟩

/-- Claim C2 (amended) witness: rank violations rejected; a batch-size
mismatch (`[2,3,6]` against `[7]`) accepted. -/
theorem C2_nms_rank_checks_only_witness :
    NMSRel [.tensor ⟨[2, 3], .float 32⟩, .tensor ⟨[2], .int 32⟩, .incomplete, .incomplete]
        ⟨-1, 1/2, false, -1, 2, 1, 0, false, false⟩
      = .error (.checkFail "Input data should be 3-D.") ∧
    NMSRel [.tensor ⟨[2, 3, 6], .float 32⟩, .tensor ⟨[2, 1], .int 32⟩, .incomplete, .incomplete]
        ⟨-1, 1/2, false, -1, 2, 1, 0, false, false⟩
      = .error (.checkFail "Input valid count should be 1-D.") ∧
    (∃ t, NMSRel [.tensor ⟨[2, 3, 6], .float 32⟩, .tensor ⟨[7], .int 32⟩, .incomplete, .incomplete]
        ⟨-1, 1/2, false, -1, 2, 1, 0, false, false⟩ = .ok t) :=
  ⟨(C2_nms_rank_checks_only (.float 32) (.int 32) .incomplete .incomplete _).1
      [2, 3] [2] (by decide),
   (C2_nms_rank_checks_only (.float 32) (.int 32) .incomplete .incomplete _).2.1
      [2, 3, 6] [2, 1] rfl (by decide),
   (C2_nms_rank_checks_only (.float 32) (.int 32) .incomplete .incomplete _).2.2
      2 3 6 7⟩

/-- Claim C3: on 3-D data `[B,N,K]`, `GetValidCountRel` assigns the tuple
(count `[B]` int32, data `[B,N,K]` of the input dtype, indices `[B,N]`
int32), in that order. -/
theorem C3_get_valid_counts_output_type (b n k : Nat) (d : DType) (oty : RType)
    (a : GetValidCountsAttrs) :
    GetValidCountRel [.tensor ⟨[b, n, k], d⟩, oty] a
      = .ok (.tuple [.tensor ⟨[b], .int 32⟩, .tensor ⟨[b, n, k], d⟩,
                     .tensor ⟨[b, n], .int 32⟩]) := rfl

/-- Claim C4: on 2-D box_indices `[B,N]` and 2-D class_ids,
`BatchToIndexRel` assigns a tensor of shape `[B*N, 3]` with the dtype of
box_indices. -/
theorem C4_batch_to_index_output_type (b n c0 c1 : Nat) (d d2 : DType) (oty : RType)
    (a : BatchToIndexAttrs) :
    BatchToIndexRel [.tensor ⟨[b, n], d⟩, .tensor ⟨[c0, c1], d2⟩, oty] a
      = .ok (.tensor ⟨[b * n, 3], d⟩) := rfl

/-- Claim C5 counterexample: unequal 2-D shapes (`[1,2]` box_indices
against `[3,4]` class_ids) are accepted by `BatchToIndexRel` with a
successful output assignment, not a fatal shape error. -/
theorem C5_counterexample :
    BatchToIndexRel [.tensor ⟨[1, 2], .int 32⟩, .tensor ⟨[3, 4], .int 32⟩, .incomplete] ⟨⟩
      = .ok (.tensor ⟨[2, 3], .int 32⟩) := rfl

/-- Claim C5 (amended): `BatchToIndexRel` fatally requires both inputs to
be 2-dimensional, but does not compare the two shapes: any pair of 2-D
shapes, equal or not, is accepted. -/
theorem C5_rank_checks_only (d d2 : DType) (oty : RType) (a : BatchToIndexAttrs) :
    (∀ bs cs : List Nat, bs.length ≠ 2 →
      BatchToIndexRel [.tensor ⟨bs, d⟩, .tensor ⟨cs, d2⟩, oty] a
        = .error (.checkFail "Box indices should be 2-D.")) ∧
    (∀ bs cs : List Nat, bs.length = 2 → cs.length ≠ 2 →
      BatchToIndexRel [.tensor ⟨bs, d⟩, .tensor ⟨cs, d2⟩, oty] a
        = .error (.checkFail "Class IDs should be 2-D.")) ∧
    (∀ b n c0 c1 : Nat,
      BatchToIndexRel [.tensor ⟨[b, n], d⟩, .tensor ⟨[c0, c1], d2⟩, oty] a
        = .ok (.tensor ⟨[b * n, 3], d⟩)) := by
  refine ⟨?_, ?_, ?_⟩
  · intro bs cs h
    simp [BatchToIndexRel, RType.asTensor, h]
  · intro bs cs h2 hc
    simp [BatchToIndexRel, RType.asTensor, h2, hc]
  · intro b n c0 c1
    rfl

/-- Claim C5 (amended) witness: rank violations rejected; unequal 2-D
shapes accepted. -/
theorem C5_rank_checks_only_witness :
    BatchToIndexRel [.tensor ⟨[4], .int 32⟩, .tensor ⟨[1, 2], .int 32⟩, .incomplete] ⟨⟩
      = .error (.checkFail "Box indices should be 2-D.") ∧
    BatchToIndexRel [.tensor ⟨[1, 2], .int 32⟩, .tensor ⟨[6], .int 32⟩, .incomplete] ⟨⟩
      = .error (.checkFail "Class IDs should be 2-D.") ∧
    BatchToIndexRel [.tensor ⟨[2, 5], .int 32⟩, .tensor ⟨[9, 9], .int 32⟩, .incomplete] ⟨⟩
      = .ok (.tensor ⟨[10, 3], .int 32⟩) :=
  ⟨(C5_rank_checks_only (.int 32) (.int 32) .incomplete ⟨⟩).1 [4] [1, 2] (by decide),
   (C5_rank_checks_only (.int 32) (.int 32) .incomplete ⟨⟩).2.1 [1, 2] [6] rfl (by decide),
   (C5_rank_checks_only (.int 32) (.int 32) .incomplete ⟨⟩).2.2 2 5 9 9⟩

/-- Claim C6 counterexample: with `K = 3` and `score_index = 100` (far out
of `[0, K)`), `GetValidCountRel` succeeds; the attributes are never read,
so no score_index bound is enforced. -/
theorem C6_counterexample :
    GetValidCountRel [.tensor ⟨[1, 2, 3], .float 32⟩, .incomplete] ⟨0, 0, 100⟩
      = .ok (.tuple [.tensor ⟨[1], .int 32⟩, .tensor ⟨[1, 2, 3], .float 32⟩,
                     .tensor ⟨[1, 2], .int 32⟩]) := rfl

/-- Claim C6 (amended): `GetValidCountRel` fatally requires data rank 3;
it never reads the attributes, so `score_index` is not validated against
`[0, K)` and every 3-D input succeeds for every attribute setting. -/
theorem C6_gvc_rank_check_only (d : DType) (oty : RType) :
    (∀ (shp : List Nat) (a : GetValidCountsAttrs), shp.length ≠ 3 →
      GetValidCountRel [.tensor ⟨shp, d⟩, oty] a
        = .error (.checkFail "Input data should be 3-D.")) ∧
    (∀ (b n k : Nat) (a : GetValidCountsAttrs), ∃ t,
      GetValidCountRel [.tensor ⟨[b, n, k], d⟩, oty] a = .ok t) ∧
    (∀ (types : List RType) (a a2 : GetValidCountsAttrs),
      GetValidCountRel types a = GetValidCountRel types a2) := by
  refine ⟨?_, ?_, ?_⟩
  · intro shp a h
    match shp, h with
    | [], _ => rfl
    | [x], _ => rfl
    | [x, y], _ => rfl
    | x :: y :: z :: w :: rest, _ => rfl
    | [x, y, z], h => exact absurd rfl h
  · intro b n k a
    exact ⟨_, rfl⟩
  · intro types a a2
    rfl

/-- Claim C6 (amended) witness: rank violation rejected; out-of-bounds
`score_index` accepted. -/
theorem C6_gvc_rank_check_only_witness :
    GetValidCountRel [.tensor ⟨[1, 2], .float 32⟩, .incomplete] ⟨0, 0, 1⟩
      = .error (.checkFail "Input data should be 3-D.") ∧
    (∃ t, GetValidCountRel [.tensor ⟨[1, 2, 3], .float 32⟩, .incomplete] ⟨0, 0, 100⟩ = .ok t) :=
  ⟨(C6_gvc_rank_check_only (.float 32) .incomplete).1 [1, 2] ⟨0, 0, 1⟩ (by decide),
   (C6_gvc_rank_check_only (.float 32) .incomplete).2.1 1 2 3 ⟨0, 0, 100⟩⟩

/-- Claim C7: each shape-inference relation is a pure function of the
input types and attributes; varying the tensor element contents while
holding shapes, dtypes and attributes fixed cannot change the result of
any of the three relations. -/
theorem C7_shape_inference_content_independent
    (inputs1 inputs2 : List TensorValue) (rest : List RType)
    (hty : inputs1.map TensorValue.ty = inputs2.map TensorValue.ty) :
    (∀ a, runGetValidCount inputs1 rest a = runGetValidCount inputs2 rest a) ∧
    (∀ p, runNMS inputs1 rest p = runNMS inputs2 rest p) ∧
    (∀ a, runBatchToIndex inputs1 rest a = runBatchToIndex inputs2 rest a) := by
  have ht : typesOf inputs1 rest = typesOf inputs2 rest := by
    unfold typesOf
    have h1 : inputs1.map (fun v => RType.tensor v.ty)
        = (inputs1.map TensorValue.ty).map RType.tensor := by
      simp [List.map_map]
    have h2 : inputs2.map (fun v => RType.tensor v.ty)
        = (inputs2.map TensorValue.ty).map RType.tensor := by
      simp [List.map_map]
    rw [h1, h2, hty]
  exact ⟨fun a => by unfold runGetValidCount; rw [ht],
         fun p => by unfold runNMS; rw [ht],
         fun a => by unfold runBatchToIndex; rw [ht]⟩

/-- Claim C7 witness: two runs on tensors of identical type but different
contents give identical results. -/
theorem C7_shape_inference_content_independent_witness :
    ([⟨⟨[1, 2, 3], .float 32⟩, [1, 2, 3, 4, 5, 6]⟩] : List TensorValue).map TensorValue.ty
      = ([⟨⟨[1, 2, 3], .float 32⟩, [9, 9, 9, 9, 9, 9]⟩] : List TensorValue).map TensorValue.ty ∧
    runGetValidCount [⟨⟨[1, 2, 3], .float 32⟩, [1, 2, 3, 4, 5, 6]⟩] [.incomplete] ⟨0, 0, 1⟩
      = runGetValidCount [⟨⟨[1, 2, 3], .float 32⟩, [9, 9, 9, 9, 9, 9]⟩] [.incomplete] ⟨0, 0, 1⟩ :=
  ⟨rfl,
   (C7_shape_inference_content_independent
      [⟨⟨[1, 2, 3], .float 32⟩, [1, 2, 3, 4, 5, 6]⟩]
      [⟨⟨[1, 2, 3], .float 32⟩, [9, 9, 9, 9, 9, 9]⟩]
      [.incomplete] rfl).1 ⟨0, 0, 1⟩⟩

/-- Claim C8: `iou` is symmetric; a zero denominator yields 0 rather than
an undefined division; and a box of nonzero area has `iou` 1 with
itself. -/
theorem C8_iou_properties :
    (∀ x y : Box, iou x y = iou y x) ∧
    (∀ x y : Box, area x + area y - intersectionArea x y = 0 → iou x y = 0) ∧
    (∀ x : Box, area x ≠ 0 → iou x x = 1) := by
  have hsymm : ∀ x y : Box, intersectionArea x y = intersectionArea y x := by
    intro x y
    unfold intersectionArea
    rw [min_comm x.right, max_comm x.left, min_comm x.bottom, max_comm x.top]
  have hself : ∀ x : Box, intersectionArea x x = area x := by
    intro x
    unfold intersectionArea area
    rw [min_self, max_self, min_self, max_self]
  refine ⟨?_, ?_, ?_⟩
  · intro x y
    unfold iou
    rw [hsymm x y, add_comm (area x) (area y)]
  · intro x y h
    unfold iou
    rw [if_pos h]
  · intro x hx
    unfold iou
    rw [hself x]
    have harea : area x + area x - area x = area x := by ring
    rw [harea, if_neg hx]
    exact div_self hx

/-- Claim C8 witness: symmetry at a concrete overlapping pair; a pair of
degenerate boxes yielding 0; a concrete non-degenerate box with self-IoU
1. -/
theorem C8_iou_properties_witness :
    iou ⟨0, 0, 2, 2⟩ ⟨1, 1, 3, 3⟩ = iou ⟨1, 1, 3, 3⟩ ⟨0, 0, 2, 2⟩ ∧
    (area ⟨0, 0, 0, 0⟩ + area ⟨5, 5, 5, 5⟩ - intersectionArea ⟨0, 0, 0, 0⟩ ⟨5, 5, 5, 5⟩ = 0 ∧
      iou ⟨0, 0, 0, 0⟩ ⟨5, 5, 5, 5⟩ = 0) ∧
    (area ⟨0, 0, 2, 2⟩ ≠ 0 ∧ iou ⟨0, 0, 2, 2⟩ ⟨0, 0, 2, 2⟩ = 1) := by
  have h1 : area (⟨0, 0, 0, 0⟩ : Box) + area (⟨5, 5, 5, 5⟩ : Box)
      - intersectionArea ⟨0, 0, 0, 0⟩ ⟨5, 5, 5, 5⟩ = 0 := by
    norm_num [area, intersectionArea, max_def, min_def]
  have h2 : area (⟨0, 0, 2, 2⟩ : Box) ≠ 0 := by
    norm_num [area, max_def]
  exact ⟨C8_iou_properties.1 _ _,
         ⟨h1, C8_iou_properties.2.1 _ _ h1⟩,
         ⟨h2, C8_iou_properties.2.2 _ h2⟩⟩

/-- Claim C9: whenever the downcast input slots hold tensor types
(`types[0]` and `types[1]` for `NMSRel`, `types[0]` for
`GetValidCountRel`, `types[0]` and `types[1]` for `BatchToIndexRel`), no
null dereference occurs; and without that precondition each relation does
hit the null dereference, witnessed by a non-tensor input. -/
theorem C9_null_deref_safety :
    (∀ (types : List RType) (p : NonMaximumSuppressionAttrs),
      (∀ t, types[0]? = some t → t.isTensor = true) →
      (∀ t, types[1]? = some t → t.isTensor = true) →
      NMSRel types p ≠ .error .nullDeref) ∧
    (∀ (types : List RType) (a : GetValidCountsAttrs),
      (∀ t, types[0]? = some t → t.isTensor = true) →
      GetValidCountRel types a ≠ .error .nullDeref) ∧
    (∀ (types : List RType) (a : BatchToIndexAttrs),
      (∀ t, types[0]? = some t → t.isTensor = true) →
      (∀ t, types[1]? = some t → t.isTensor = true) →
      BatchToIndexRel types a ≠ .error .nullDeref) ∧
    NMSRel [.incomplete, .incomplete, .incomplete, .incomplete]
      ⟨-1, 1/2, false, -1, 2, 1, 0, false, false⟩ = .error .nullDeref ∧
    GetValidCountRel [.incomplete, .incomplete] ⟨0, 0, 1⟩ = .error .nullDeref ∧
    BatchToIndexRel [.tensor ⟨[1, 1], .int 32⟩, .tuple [], .incomplete] ⟨⟩
      = .error .nullDeref := by
  refine ⟨?_, ?_, ?_, rfl, rfl, rfl⟩
  · intro types p h0 h1
    rcases types with _ | ⟨t0, _ | ⟨t1, _ | ⟨t2, _ | ⟨t3, _ | ⟨t4, rest⟩⟩⟩⟩⟩
    · simp [NMSRel]
    · simp [NMSRel]
    · simp [NMSRel]
    · simp [NMSRel]
    · have ht0 := h0 t0 rfl
      have ht1 := h1 t1 rfl
      cases t0 with
      | tensor dt =>
        cases t1 with
        | tensor vt =>
          by_cases h3 : dt.shape.length = 3 <;> by_cases hv : vt.shape.length = 1 <;>
            by_cases hri : p.return_indices <;>
            simp [NMSRel, RType.asTensor, h3, hv, hri]
        | tuple l => simp [RType.isTensor] at ht1
        | incomplete => simp [RType.isTensor] at ht1
      | tuple l => simp [RType.isTensor] at ht0
      | incomplete => simp [RType.isTensor] at ht0
    · simp [NMSRel]
  · intro types a h0
    rcases types with _ | ⟨t0, _ | ⟨t1, _ | ⟨t2, rest⟩⟩⟩
    · simp [GetValidCountRel]
    · simp [GetValidCountRel]
    · have ht0 := h0 t0 rfl
      cases t0 with
      | tensor dt =>
        rcases dt with ⟨shp, d⟩
        rcases shp with _ | ⟨s0, _ | ⟨s1, _ | ⟨s2, _ | ⟨s3, srest⟩⟩⟩⟩ <;>
          simp [GetValidCountRel, RType.asTensor]
      | tuple l => simp [RType.isTensor] at ht0
      | incomplete => simp [RType.isTensor] at ht0
    · simp [GetValidCountRel]
  · intro types a h0 h1
    rcases types with _ | ⟨t0, _ | ⟨t1, _ | ⟨t2, _ | ⟨t3, rest⟩⟩⟩⟩
    · simp [BatchToIndexRel]
    · simp [BatchToIndexRel]
    · simp [BatchToIndexRel]
    · have ht0 := h0 t0 rfl
      have ht1 := h1 t1 rfl
      cases t0 with
      | tensor bt =>
        cases t1 with
        | tensor ct =>
          by_cases hb : bt.shape.length = 2 <;> by_cases hc : ct.shape.length = 2 <;>
            simp [BatchToIndexRel, RType.asTensor, hb, hc]
        | tuple l => simp [RType.isTensor] at ht1
        | incomplete => simp [RType.isTensor] at ht1
      | tuple l => simp [RType.isTensor] at ht0
      | incomplete => simp [RType.isTensor] at ht0
    · simp [BatchToIndexRel]

/-- Claim C9 witness: under the tensor-type precondition, concrete calls
to each relation avoid the null dereference. -/
theorem C9_null_deref_safety_witness :
    NMSRel [.tensor ⟨[1, 1, 6], .float 32⟩, .tensor ⟨[1], .int 32⟩, .incomplete, .incomplete]
      ⟨-1, 1/2, false, -1, 2, 1, 0, false, false⟩ ≠ .error .nullDeref ∧
    GetValidCountRel [.tensor ⟨[1, 1, 6], .float 32⟩, .incomplete] ⟨0, 0, 1⟩
      ≠ .error .nullDeref ∧
    BatchToIndexRel [.tensor ⟨[1, 2], .int 32⟩, .tensor ⟨[1, 2], .int 32⟩, .incomplete] ⟨⟩
      ≠ .error .nullDeref :=
  ⟨C9_null_deref_safety.1 _ _ (fun t ht => by cases ht; rfl) (fun t ht => by cases ht; rfl),
   C9_null_deref_safety.2.1 _ _ (fun t ht => by cases ht; rfl),
   C9_null_deref_safety.2.2.1 _ _ (fun t ht => by cases ht; rfl) (fun t ht => by cases ht; rfl)⟩

/-- Claim C10: `MakeNMS` builds a call to `vision.non_max_suppression`
with arguments `(data, valid_count, indices)` and all nine attribute
fields equal to its arguments, and `MakeGetValidCounts` builds a call to
`vision.get_valid_counts` with argument `(data)` and attribute fields
equal to its arguments. -/
theorem C10_make_calls_verbatim (data valid_count indices : Expr)
    (max_output_size : Int) (iou_threshold : Rat) (force_suppress : Bool)
    (top_k coord_start score_index id_index : Int)
    (return_indices invalid_to_bottom : Bool) (score_threshold : Rat)
    (g_id_index g_score_index : Int) :
    MakeNMS data valid_count indices max_output_size iou_threshold force_suppress
        top_k coord_start score_index id_index return_indices invalid_to_bottom
      = Expr.call "vision.non_max_suppression" [data, valid_count, indices]
          (AttrsVal.nms ⟨max_output_size, iou_threshold, force_suppress, top_k,
                         coord_start, score_index, id_index, return_indices,
                         invalid_to_bottom⟩) ∧
    MakeGetValidCounts data score_threshold g_id_index g_score_index
      = Expr.call "vision.get_valid_counts" [data]
          (AttrsVal.gvc ⟨score_threshold, g_id_index, g_score_index⟩) :=
  ⟨rfl, rfl⟩

end NmsVerify
